import Mathlib

/-!
Verification development for the shingle-analyzer repository
(`vultr-3d/{roof_measurements.py, server.py, roof_server.py}`).

Shallow embedding conventions:
* Report dictionaries returned to the caller are modelled by the `JVal`
  JSON-value type; Python `dict` literals become `JVal.obj` field lists.
* `trimesh` is an external library: attributes read from a loaded mesh object
  (`mesh.area`, `mesh.area_faces`, `mesh.face_normals`, `mesh.bounds`,
  component split results) are inputs to the embedded functions, exactly the
  data the source reads from the library object.
* Exact real numbers stand for Python floats; `random.randint(a, b)` is
  modelled as consuming one draw `v` from an abstract stream of generator
  outputs, producing `a + v % (b - a + 1) ∈ [a, b]`.
* Python `round` rounds half to even; Mathlib `round` rounds half up.  The
  two agree except at exact half-integers, and no theorem below evaluates a
  rounding at a half-integer.
-/

/-- JSON-like values: the shape of the measurement report dictionaries. -/
inductive JVal where
  | num : ℚ → JVal
  | str : String → JVal
  | bool : Bool → JVal
  | obj : List (String × JVal) → JVal

/-- Field lookup in a JSON object (`d["k"]` on a dict, `none` otherwise). -/
def JVal.find : JVal → String → Option JVal
  | .obj fields, k => List.lookup k fields
  | _, _ => none

/-- Two-level field lookup: `d["k1"]["k2"]` when both levels exist. -/
def JVal.find2 (j : JVal) (k1 k2 : String) : Option JVal :=
  match j.find k1 with
  | some v => v.find k2
  | none => none

namespace RoofMeasurements
/-! ## roof_measurements.py -/

/-- `calculate_roof_area` (roof_measurements.py:11-27):
`np.sum(mesh.area_faces) * 10.764`.  The argument is the `mesh.area_faces`
list read from the trimesh object (square meters per face). -/
def calculate_roof_area (area_faces : List ℚ) : ℚ :=
  area_faces.sum * 10.764

/-- Output dict of `detect_features` (roof_measurements.py:108-149). -/
structure FeatureCounts where
  total_components : ℕ
  chimneys : ℕ
  vents : ℕ
  skylights : ℕ
  other_features : ℕ
  deriving DecidableEq

/-- `detect_features` (roof_measurements.py:108-149): classify each connected
component by its absolute area in square feet.  The argument is the list of
component areas in square meters (`component.area` for each element of
`mesh.split(only_watertight=False)`); `area_threshold` defaults to `10.0`
in the source and is passed explicitly here. -/
def detect_features (componentAreas : List ℚ) (area_threshold : ℚ) : FeatureCounts :=
  let init : FeatureCounts :=
    { total_components := componentAreas.length
      chimneys := 0, vents := 0, skylights := 0, other_features := 0 }
  componentAreas.foldl (fun acc compArea =>
    let area := compArea * 10.764
    if area < area_threshold then acc
    else if 50 < area then { acc with chimneys := acc.chimneys + 1 }
    else if 20 < area then { acc with skylights := acc.skylights + 1 }
    else { acc with vents := acc.vents + 1 }) init

/-- The upward-face mask of `calculate_roof_pitch` (roof_measurements.py:46-53):
keep the faces whose normal has `normal · (0,0,1) > 0`, i.e. positive z. -/
noncomputable def filterUpward : List (ℝ × ℝ × ℝ) → List (ℝ × ℝ × ℝ)
  | [] => []
  | n :: t => if 0 < n.2.2 then n :: filterUpward t else filterUpward t

/-- `angles_deg` (roof_measurements.py:56-59):
`np.degrees(np.arccos(np.abs(upward_normals · up)))`. -/
noncomputable def anglesDeg (normals : List (ℝ × ℝ × ℝ)) : List ℝ :=
  (filterUpward normals).map (fun n => Real.arccos |n.2.2| * (180 / Real.pi))

/-- `arr.min()` of a nonempty array (`0` on the empty list, a case numpy
rejects and no theorem evaluates). -/
noncomputable def listMin : List ℝ → ℝ
  | [] => 0
  | a :: t => t.foldl min a

/-- `arr.max()` of a nonempty array. -/
noncomputable def listMax : List ℝ → ℝ
  | [] => 0
  | a :: t => t.foldl max a

/-- Lower end of the `np.histogram(angles_deg, bins=36)` range: the data
minimum, expanded by `0.5` when the data are all equal (numpy's degenerate
range rule). -/
noncomputable def binLo (l : List ℝ) : ℝ :=
  if listMin l = listMax l then listMin l - 0.5 else listMin l

/-- Upper end of the `np.histogram` range (see `binLo`). -/
noncomputable def binHi (l : List ℝ) : ℝ :=
  if listMin l = listMax l then listMax l + 0.5 else listMax l

/-- `bin_edges[k]` of `np.histogram(angles_deg, bins=36)`: 37 equally spaced
edges over `[binLo, binHi]`. -/
noncomputable def binEdge (l : List ℝ) (k : ℕ) : ℝ :=
  binLo l + k * (binHi l - binLo l) / 36

/-- Count of array members in the half-open interval `[lo, hi)`. -/
noncomputable def countIn (lo hi : ℝ) : List ℝ → ℕ
  | [] => 0
  | a :: t => (if lo ≤ a ∧ a < hi then 1 else 0) + countIn lo hi t

/-- Count of array members in the closed interval `[lo, hi]`. -/
noncomputable def countInClosed (lo hi : ℝ) : List ℝ → ℕ
  | [] => 0
  | a :: t => (if lo ≤ a ∧ a ≤ hi then 1 else 0) + countInClosed lo hi t

/-- `hist[k]` of `np.histogram`: bins are half-open except the last, which
includes its right edge. -/
noncomputable def binCount (l : List ℝ) (k : ℕ) : ℕ :=
  if k = 35 then countInClosed (binEdge l 35) (binEdge l 36) l
  else countIn (binEdge l k) (binEdge l (k + 1)) l

/-- The full `hist` array of `np.histogram(angles_deg, bins=36)`. -/
noncomputable def histCounts (l : List ℝ) : List ℕ :=
  (List.range 36).map (binCount l)

/-- `np.argmax`: index of the first occurrence of the maximum. -/
def argmaxIdx (counts : List ℕ) : ℕ :=
  counts.indexOf (counts.foldr max 0)

/-- The members selected by the mean mask (roof_measurements.py:67-70):
`angles_deg >= bin_edges[k] & angles_deg < bin_edges[k+1]` — half-open for
every bin, including the last. -/
noncomputable def membersIn (lo hi : ℝ) : List ℝ → List ℝ
  | [] => []
  | a :: t => if lo ≤ a ∧ a < hi then a :: membersIn lo hi t else membersIn lo hi t

/-- `primary_angle` (roof_measurements.py:65-70): the mean of the angles
falling in the most populated histogram bin.  `np.mean([])` is NaN in the
source; the model returns `0` there (no theorem evaluates that case). -/
noncomputable def primaryAngle (l : List ℝ) : ℝ :=
  let k := argmaxIdx (histCounts l)
  let members := membersIn (binEdge l k) (binEdge l (k + 1)) l
  members.sum / members.length

/-- Renders `f"{x:.1f}"` for a nonnegative value given `n = round(10 * x)`:
the integer part, a dot, and the tenths digit. -/
def fmtOneDecimal (n : ℤ) : String :=
  toString (n / 10) ++ "." ++ toString (n % 10)

/-- Output of `calculate_roof_pitch`: the `primary` pitch string and the
`degrees` number. -/
structure PitchOut where
  primary : String
  degrees : ℝ

/-- `calculate_roof_pitch` (roof_measurements.py:29-82): with no
upward-facing face, `{"primary": "Unknown", "degrees": 0}`; otherwise the
histogram primary angle `a`, rendered as
`f"{tan(radians(a)) * 12:.1f}" ++ ":12"` with
`degrees = float(f"{a:.1f}")`. -/
noncomputable def calculate_roof_pitch (normals : List (ℝ × ℝ × ℝ)) : PitchOut :=
  match filterUpward normals with
  | [] => { primary := "Unknown", degrees := 0 }
  | _ :: _ =>
    let a := primaryAngle (anglesDeg normals)
    let rise := Real.tan (a * Real.pi / 180) * 12
    { primary := fmtOneDecimal (round (rise * 10)) ++ ":12"
      degrees := ((round (a * 10) : ℤ) : ℝ) / 10 }

/-- The unit normal of a roof face tilted `d` degrees from horizontal:
`(sin(d·π/180), 0, cos(d·π/180))`. -/
noncomputable def faceOfDeg (d : ℝ) : ℝ × ℝ × ℝ :=
  (Real.sin (d * Real.pi / 180), 0, Real.cos (d * Real.pi / 180))

/-- Test mesh: a single face tilted 30° from horizontal. -/
noncomputable def mesh30 : List (ℝ × ℝ × ℝ) := [faceOfDeg 30]

/-- Test mesh: four upward faces tilted 0°, 2°, 2° and 45° from
horizontal. -/
noncomputable def mesh4 : List (ℝ × ℝ × ℝ) :=
  [faceOfDeg 0, faceOfDeg 2, faceOfDeg 2, faceOfDeg 45]

/-- Modelled from the spec's words for comparison in claim C4: bin `k` of a
36-bin histogram over the FIXED range [0°, 90°), so bin `k` spans
`[90k/36, 90(k+1)/36)`. -/
noncomputable def specBinCount (l : List ℝ) (k : ℕ) : ℕ :=
  countIn (90 * k / 36) (90 * (k + 1) / 36) l

/-- Modelled from the spec's words: the full fixed-range histogram. -/
noncomputable def specCounts (l : List ℝ) : List ℕ :=
  (List.range 36).map (specBinCount l)

/-- Modelled from the spec's words, for comparison with the source in claim
C4: the same mean-of-most-populated-bin estimator but with the 36 bins
spanning the FIXED range [0°, 90°) instead of the data range. -/
noncomputable def specPrimaryAngleFixed (l : List ℝ) : ℝ :=
  let k := argmaxIdx (specCounts l)
  let members := membersIn (90 * k / 36) (90 * (k + 1) / 36) l
  members.sum / members.length

end RoofMeasurements

namespace Server
/-! ## server.py -/

/-- The fallback report built in the `except` branch of
`calculate_roof_measurements` (server.py:211-242); `err` is `str(e)`. -/
def fallback_measurements (err : String) : JVal :=
  .obj [
    ("area", .obj [("total", .num 2000), ("unit", .str "sq_ft"),
                   ("estimated", .bool true)]),
    ("pitch", .obj [("primary", .str "6/12"), ("degrees", .num 26.6),
                    ("estimated", .bool true)]),
    ("dimensions", .obj [("length", .num 60), ("width", .num 40),
                         ("height", .num 15), ("estimated", .bool true)]),
    ("features", .obj [("chimneys", .num 0), ("vents", .num 0),
                       ("skylights", .num 0), ("estimated", .bool true)]),
    ("accuracy", .obj [("estimated_error_margin", .str "±20%"),
                       ("confidence", .str "low"), ("error", .str err)])]

/-- The `try/except` wrapper of `calculate_roof_measurements`
(server.py:88-242): the argument is the outcome of the `try` body
(`.ok report` when mesh loading and measurement succeed, `.error (str e)`
when any step raises); the `except` branch returns the fallback report
instead of re-raising. -/
def calculate_roof_measurements : Except String JVal → JVal
  | .ok report => report
  | .error e => fallback_measurements e

/-- One connected component as seen by server.py's feature detector:
`comp.area` (square meters) and the two corners of `comp.bounds`. -/
structure Component3 where
  area : ℚ
  bmin : ℚ × ℚ × ℚ
  bmax : ℚ × ℚ × ℚ

/-- The mesh data read by `detect_roof_features`: `mesh.area` and the
components returned by `mesh.split(only_watertight=False)`. -/
structure ServerMesh where
  area : ℚ
  components : List Component3

/-- Output dict of `detect_roof_features` (server.py:372-377). -/
structure ServerFeatures where
  chimneys : ℕ
  vents : ℕ
  skylights : ℕ
  total_features : ℕ
  deriving DecidableEq

/-- One loop iteration of `detect_roof_features` (server.py:343-370): the
(chimney, vent, skylight) contribution of a single component.  Components
with `comp.area > mesh.area * 0.1` are skipped (`continue`); the rest are
classified by bounding-box extents. -/
def featureContribution (meshArea : ℚ) (c : Component3) : ℕ × ℕ × ℕ :=
  if meshArea * 0.1 < c.area then (0, 0, 0)
  else
    let width := c.bmax.1 - c.bmin.1
    let length := c.bmax.2.1 - c.bmin.2.1
    let height := c.bmax.2.2 - c.bmin.2.2
    if 1.0 < height ∧ width < 1.0 ∧ length < 1.0 then (1, 0, 0)
    else if width < 0.5 ∧ length < 0.5 ∧ height < 0.3 then (0, 1, 0)
    else if 0.5 < width ∧ 0.5 < length ∧ height < 0.3 then (0, 0, 1)
    else (0, 0, 0)

/-- `detect_roof_features` (server.py:316-377): sum the per-component
contributions and report the totals. -/
def detect_roof_features (m : ServerMesh) : ServerFeatures :=
  let t := m.components.foldl
    (fun acc c =>
      let p := featureContribution m.area c
      (acc.1 + p.1, acc.2.1 + p.2.1, acc.2.2 + p.2.2)) ((0, 0, 0) : ℕ × ℕ × ℕ)
  { chimneys := t.1, vents := t.2.1, skylights := t.2.2
    total_features := t.1 + t.2.1 + t.2.2 }

end Server

namespace RoofServer
/-! ## roof_server.py -/

/-- `random.randint(a, b)` modelled on one draw `v` from the generator
stream: a value in `[a, b]` determined by the hidden generator state, not by
any mesh/pose input. -/
def randint (a b : ℕ) (v : ℕ) : ℕ := a + v % (b - a + 1)

/-- `generate_estimated_measurements` (roof_server.py:883-908): the fallback
report whose numeric fields are drawn from `random.randint`; `s` is the
stream of generator draws consumed left to right. -/
def generate_estimated_measurements (s : ℕ → ℕ) : JVal :=
  .obj [
    ("area", .obj [("total", .num (randint 1000 2000 (s 0))),
                   ("unit", .str "sq_ft")]),
    ("pitch", .obj [("primary", .str (toString (randint 3 10 (s 1)) ++ "/12")),
                    ("degrees", .num (randint 15 45 (s 2)))]),
    ("dimensions", .obj [("length", .num (randint 30 50 (s 3))),
                         ("width", .num (randint 20 40 (s 4))),
                         ("height", .num (randint 10 20 (s 5)))]),
    ("features", .obj [("chimneys", .num (randint 0 1 (s 6))),
                       ("vents", .num (randint 2 7 (s 7))),
                       ("skylights", .num (randint 0 1 (s 8)))])]

/-- The trimesh attributes read by roof_server.py's
`calculate_roof_measurements` success path: `mesh.area`, the two corners of
`mesh.bounds`, and `mesh.face_normals`. -/
structure TriMesh where
  area : ℝ
  boundsMin : ℝ × ℝ × ℝ
  boundsMax : ℝ × ℝ × ℝ
  faceNormals : List (ℝ × ℝ × ℝ)

/-- `np.median`: sort, take the middle element (odd length) or the mean of
the two middle elements (even length).  `np.median([])` is NaN in the
source; the model returns `0` there (no theorem evaluates that case). -/
noncomputable def median (l : List ℝ) : ℝ :=
  let s := l.mergeSort (fun a b => decide (a ≤ b))
  if l.length % 2 = 1 then s.getD (l.length / 2) 0
  else (s.getD (l.length / 2 - 1) 0 + s.getD (l.length / 2) 0) / 2

/-- The `try` body of `calculate_roof_measurements` (roof_server.py:825-874)
on a successfully loaded mesh: area, bounding-box dimensions, median-angle
pitch, fixed feature placeholders. -/
noncomputable def success_measurements (m : TriMesh) : JVal :=
  let total_area := m.area * 10.764
  let length := (m.boundsMax.1 - m.boundsMin.1) * 3.28084
  let width := (m.boundsMax.2.1 - m.boundsMin.2.1) * 3.28084
  let height := (m.boundsMax.2.2 - m.boundsMin.2.2) * 3.28084
  let z_components := m.faceNormals.map (fun n => |n.2.2|)
  let pitch_degrees := median (z_components.map (fun z => Real.arccos z * 180 / Real.pi))
  let pitchRise : ℤ := round (Real.tan (pitch_degrees * Real.pi / 180) * 12)
  .obj [
    ("area", .obj [("total", .num (round total_area : ℤ)), ("unit", .str "sq_ft")]),
    ("pitch", .obj [("primary", .str (toString pitchRise ++ "/12")),
                    ("degrees", .num (round pitch_degrees : ℤ))]),
    ("dimensions", .obj [("length", .num (round length : ℤ)),
                         ("width", .num (round width : ℤ)),
                         ("height", .num (round height : ℤ))]),
    ("features", .obj [("chimneys", .num 0), ("vents", .num 4),
                       ("skylights", .num 0)])]

/-- `calculate_roof_measurements` (roof_server.py:821-880): on a loaded mesh
the `try` body's report, on any failure (`loaded = none`) the random
fallback `generate_estimated_measurements`, never an exception. -/
noncomputable def calculate_roof_measurements (loaded : Option TriMesh) (s : ℕ → ℕ) : JVal :=
  match loaded with
  | some m => success_measurements m
  | none => generate_estimated_measurements s

/-- `quaternion_to_rotation_matrix` (roof_server.py:398-417), quaternion
given as `(qw, qx, qy, qz)`. -/
noncomputable def quaternion_to_rotation_matrix (q : ℝ × ℝ × ℝ × ℝ) :
    Matrix (Fin 3) (Fin 3) ℝ :=
  let qw := q.1; let qx := q.2.1; let qy := q.2.2.1; let qz := q.2.2.2
  Matrix.of
    ![![1 - 2 * qy * qy - 2 * qz * qz, 2 * qx * qy - 2 * qz * qw, 2 * qx * qz + 2 * qy * qw],
      ![2 * qx * qy + 2 * qz * qw, 1 - 2 * qx * qx - 2 * qz * qz, 2 * qy * qz - 2 * qx * qw],
      ![2 * qx * qz - 2 * qy * qw, 2 * qy * qz + 2 * qx * qw, 1 - 2 * qx * qx - 2 * qy * qy]]

/-- The fixed axis-convention flip matrix of `convert_to_nerf_format`
(roof_server.py:428-433): `diag(1, -1, -1, 1)`. -/
noncomputable def flipMatrix : Matrix (Fin 4) (Fin 4) ℝ :=
  Matrix.of ![![1, 0, 0, 0], ![0, -1, 0, 0], ![0, 0, -1, 0], ![0, 0, 0, 1]]

/-- `convert_to_nerf_format` (roof_server.py:420-437): `transform @ flip`. -/
noncomputable def convert_to_nerf_format (transform : Matrix (Fin 4) (Fin 4) ℝ) :
    Matrix (Fin 4) (Fin 4) ℝ :=
  transform * flipMatrix

/-- 3-vector difference (`to_pos - from_pos` etc.). -/
def vsub (a b : ℝ × ℝ × ℝ) : ℝ × ℝ × ℝ := (a.1 - b.1, a.2.1 - b.2.1, a.2.2 - b.2.2)

/-- Scalar multiple of a 3-vector. -/
def vscale (c : ℝ) (v : ℝ × ℝ × ℝ) : ℝ × ℝ × ℝ := (c * v.1, c * v.2.1, c * v.2.2)

/-- `np.linalg.norm` of a 3-vector. -/
noncomputable def vnorm (v : ℝ × ℝ × ℝ) : ℝ :=
  Real.sqrt (v.1 ^ 2 + v.2.1 ^ 2 + v.2.2 ^ 2)

/-- `np.cross` of two 3-vectors. -/
def cross (a b : ℝ × ℝ × ℝ) : ℝ × ℝ × ℝ :=
  (a.2.1 * b.2.2 - a.2.2 * b.2.1,
   a.2.2 * b.1 - a.1 * b.2.2,
   a.1 * b.2.1 - a.2.1 * b.1)

/-- `forward = (to_pos - from_pos) / ‖to_pos - from_pos‖`
(roof_server.py:514-515). -/
noncomputable def lookForward (fromPos toPos : ℝ × ℝ × ℝ) : ℝ × ℝ × ℝ :=
  vscale (1 / vnorm (vsub toPos fromPos)) (vsub toPos fromPos)

/-- `np.cross(forward, up)` before normalization (roof_server.py:518). -/
noncomputable def lookRight0 (fromPos toPos up : ℝ × ℝ × ℝ) : ℝ × ℝ × ℝ :=
  cross (lookForward fromPos toPos) up

/-- `right = cross(forward, up) / ‖cross(forward, up)‖`
(roof_server.py:518-519). -/
noncomputable def lookRight (fromPos toPos up : ℝ × ℝ × ℝ) : ℝ × ℝ × ℝ :=
  vscale (1 / vnorm (lookRight0 fromPos toPos up)) (lookRight0 fromPos toPos up)

/-- `up = cross(right, forward)` recomputed for orthogonality
(roof_server.py:522). -/
noncomputable def lookUp (fromPos toPos up : ℝ × ℝ × ℝ) : ℝ × ℝ × ℝ :=
  cross (lookRight fromPos toPos up) (lookForward fromPos toPos)

/-- `create_look_at_matrix` (roof_server.py:506-538): rotation rows
`[right; up; -forward]` embedded in a 4×4 matrix, composed with the
translation by `-from_pos`. -/
noncomputable def create_look_at_matrix (fromPos toPos up : ℝ × ℝ × ℝ) :
    Matrix (Fin 4) (Fin 4) ℝ :=
  let r := lookRight fromPos toPos up
  let u := lookUp fromPos toPos up
  let f := lookForward fromPos toPos
  let rotation : Matrix (Fin 4) (Fin 4) ℝ :=
    Matrix.of ![![r.1, r.2.1, r.2.2, 0],
                ![u.1, u.2.1, u.2.2, 0],
                ![-f.1, -f.2.1, -f.2.2, 0],
                ![0, 0, 0, 1]]
  let translation : Matrix (Fin 4) (Fin 4) ℝ :=
    Matrix.of ![![1, 0, 0, -fromPos.1],
                ![0, 1, 0, -fromPos.2.1],
                ![0, 0, 1, -fromPos.2.2],
                ![0, 0, 0, 1]]
  rotation * translation

/-- Camera position of the `i`-th synthetic camera among `n`
(`create_fallback_transforms`, roof_server.py:471-476):
`theta = i * 2 * pi / n`, position
`(4 cos theta, 4 sin theta, 2.0 + 0.5 sin (theta * 2))`. -/
noncomputable def eyePos (n i : ℕ) : ℝ × ℝ × ℝ :=
  let theta : ℝ := i * 2 * Real.pi / n
  (4 * Real.cos theta, 4 * Real.sin theta, 2 + 0.5 * Real.sin (theta * 2))

/-- The `i`-th synthetic pose: `create_look_at_matrix(from_pos, origin, z-up)`
(roof_server.py:478-483). -/
noncomputable def fallbackPose (n i : ℕ) : Matrix (Fin 4) (Fin 4) ℝ :=
  create_look_at_matrix (eyePos n i) (0, 0, 0) (0, 0, 1)

/-- One frame of the fallback transforms document. -/
structure Frame where
  file_path : String
  transform_matrix : Matrix (Fin 4) (Fin 4) ℝ

/-- The fallback transforms document (camera_angle_x plus frames). -/
structure Transforms where
  camera_angle_x : ℝ
  frames : List Frame

/-- `create_fallback_transforms` (roof_server.py:440-503): with fewer than 3
images the call fails (`none`); otherwise one look-at pose per image around
the circular rig.  `imageFiles` is the filtered image file list. -/
noncomputable def create_fallback_transforms (imageFiles : List String) :
    Option Transforms :=
  if imageFiles.length < 3 then none
  else some
    { camera_angle_x := 0.8575560450553894
      frames := imageFiles.mapIdx (fun i name =>
        { file_path := name
          transform_matrix := fallbackPose imageFiles.length i }) }

/-- The camera-convention forward vector encoded in a look-at matrix: the
negated third rotation row (`rotation[2, :3] = -forward`,
roof_server.py:528). -/
def fwdOfMatrix (m : Matrix (Fin 4) (Fin 4) ℝ) : ℝ × ℝ × ℝ :=
  (-(m 2 0), -(m 2 1), -(m 2 2))

end RoofServer

/-! ## Theorems -/

/-- C2: `calculate_roof_area` returns the sum of the per-face areas times the
fixed unit-conversion constant 10.764, and on the 2×2×2-meter cube (6 faces
of 4 m² each) the total is 258.336 sq ft, within 0.01 of 258.34. -/
theorem c2_total_area_formula :
    (∀ area_faces : List ℚ,
      RoofMeasurements.calculate_roof_area area_faces = area_faces.sum * 10.764) ∧
    RoofMeasurements.calculate_roof_area [4, 4, 4, 4, 4, 4] = 258.336 ∧
    |(258.336 : ℚ) - 258.34| < 0.01 := by
  refine ⟨fun _ => rfl, ?_, by rw [abs_lt]; constructor <;> norm_num⟩
  norm_num [RoofMeasurements.calculate_roof_area]

/-- C6 (amended): in server.py's `detect_roof_features`, a component whose
area exceeds 10% of the total mesh area is skipped and contributes to no
feature count. -/
theorem c6_large_component_never_feature (meshArea : ℚ) (c : Server.Component3)
    (h : meshArea * 0.1 < c.area) :
    Server.featureContribution meshArea c = (0, 0, 0) := by
  simp [Server.featureContribution, h]

/-- C6 witness: a concrete component holding ~95% of a 9.5 m² mesh. -/
theorem c6_witness :
    ((9.5 : ℚ) * 0.1 < 9) ∧
    Server.featureContribution 9.5 ⟨9, (0, 0, 0), (2, 2, 3)⟩ = (0, 0, 0) :=
  ⟨by norm_num,
   c6_large_component_never_feature 9.5 ⟨9, (0, 0, 0), (2, 2, 3)⟩ (by norm_num)⟩

/-- C6 counterexample: roof_measurements.py's `detect_features` classifies a
component holding ~95% of the total mesh area (9 m² of 9.5 m²) as a chimney
— it applies no relative-size exclusion, refuting the claim for this cited
feature detector. -/
theorem c6_counterexample :
    RoofMeasurements.detect_features [9, 1/2] 10 =
      { total_components := 2, chimneys := 1, vents := 0, skylights := 0,
        other_features := 0 } ∧
    ((9 : ℚ) + 1/2) * 0.1 < 9 ∧ (1/2 : ℚ) * 10.764 < 10 := by
  refine ⟨?_, by norm_num, by norm_num⟩
  norm_num [RoofMeasurements.detect_features, List.foldl_cons, List.foldl_nil]

/-- C1 (amended): on failure, server.py's measurement function returns the
fixed placeholder report rather than raising; that report carries
`estimated == true` inside each of area/pitch/dimensions/features and
`accuracy.confidence == "low"` (but no `accuracy.estimated` field), while
roof_server.py's fallback report carries no `accuracy` object at all. -/
theorem c1_fallback_report_annotations :
    (∀ err : String,
      Server.calculate_roof_measurements (Except.error err) =
        Server.fallback_measurements err ∧
      (Server.fallback_measurements err).find2 "area" "estimated" = some (.bool true) ∧
      (Server.fallback_measurements err).find2 "pitch" "estimated" = some (.bool true) ∧
      (Server.fallback_measurements err).find2 "dimensions" "estimated" = some (.bool true) ∧
      (Server.fallback_measurements err).find2 "features" "estimated" = some (.bool true) ∧
      (Server.fallback_measurements err).find2 "accuracy" "confidence" = some (.str "low")) ∧
    (∀ s : ℕ → ℕ, (RoofServer.generate_estimated_measurements s).find "accuracy" = none) :=
  ⟨fun _ => ⟨rfl, rfl, rfl, rfl, rfl, rfl⟩, fun _ => rfl⟩

/-- C1 counterexample: at the concrete failure `str(e) = "load failed"`,
server.py's placeholder report has no `estimated` field inside its
`accuracy` object (the flag sits in the four sections instead), and
roof_server.py's random fallback has no `accuracy` object, so
`accuracy.estimated == true` fails on both cited failure paths. -/
theorem c1_counterexample :
    (Server.calculate_roof_measurements (Except.error "load failed")).find2
        "accuracy" "estimated" = none ∧
    (RoofServer.calculate_roof_measurements none (fun _ => 0)).find2
        "accuracy" "estimated" = none :=
  ⟨rfl, rfl⟩

/-- C9 (amended): roof_server.py's measurement output on a successfully
loaded mesh is a pure function of the mesh data — it does not depend on the
random-generator draws; only the failure fallback consumes them. -/
theorem c9_success_path_deterministic :
    ∀ (m : RoofServer.TriMesh) (s₁ s₂ : ℕ → ℕ),
      RoofServer.calculate_roof_measurements (some m) s₁ =
      RoofServer.calculate_roof_measurements (some m) s₂ :=
  fun _ _ _ => rfl

/-- C9 counterexample: on the failure path the report depends on the hidden
random-generator state, not only on the mesh/pose input — two runs whose
generators yield different draws report different area totals (1000 vs
1001), refuting two-run determinism for this path. -/
theorem c9_counterexample :
    RoofServer.calculate_roof_measurements none (fun _ => 0) ≠
    RoofServer.calculate_roof_measurements none (fun _ => 1) := by
  have h0 : RoofServer.calculate_roof_measurements none (fun _ => 0) =
      RoofServer.generate_estimated_measurements (fun _ => 0) := rfl
  have h1 : RoofServer.calculate_roof_measurements none (fun _ => 1) =
      RoofServer.generate_estimated_measurements (fun _ => 1) := rfl
  rw [h0, h1]
  intro h
  have h2 := congrArg (fun j => j.find2 "area" "total") h
  have e0 : (RoofServer.generate_estimated_measurements (fun _ => 0)).find2
      "area" "total" = some (.num 1000) := by
    norm_num [RoofServer.generate_estimated_measurements, RoofServer.randint,
      JVal.find2, JVal.find, List.lookup]
  have e1 : (RoofServer.generate_estimated_measurements (fun _ => 1)).find2
      "area" "total" = some (.num 1001) := by
    norm_num [RoofServer.generate_estimated_measurements, RoofServer.randint,
      JVal.find2, JVal.find, List.lookup]
  simp only [e0, e1, Option.some.injEq, JVal.num.injEq] at h2
  norm_num at h2

/-- C8: the axis-convention flip of `convert_to_nerf_format` is an
involution — applying it twice returns the original transform. -/
theorem c8_flip_involution (t : Matrix (Fin 4) (Fin 4) ℝ) :
    RoofServer.convert_to_nerf_format (RoofServer.convert_to_nerf_format t) = t := by
  have h : RoofServer.flipMatrix * RoofServer.flipMatrix = 1 := by
    ext i j
    fin_cases i <;> fin_cases j <;>
      simp [RoofServer.flipMatrix, Matrix.mul_apply, Fin.sum_univ_four,
        Matrix.one_apply, Matrix.vecHead, Matrix.vecTail]
  simp [RoofServer.convert_to_nerf_format, Matrix.mul_assoc, h]

/-- C7: `quaternion_to_rotation_matrix` returns exactly the standard
bilinear-formula matrix, and for a unit-norm quaternion that matrix is a
proper rotation: `R * Rᵀ = 1` and `det R = 1` exactly (hence within any ε). -/
theorem c7_quaternion_rotation (qw qx qy qz : ℝ)
    (h : qw ^ 2 + qx ^ 2 + qy ^ 2 + qz ^ 2 = 1) :
    RoofServer.quaternion_to_rotation_matrix (qw, qx, qy, qz) =
      Matrix.of
        ![![1 - 2*qy^2 - 2*qz^2, 2*qx*qy - 2*qz*qw, 2*qx*qz + 2*qy*qw],
          ![2*qx*qy + 2*qz*qw, 1 - 2*qx^2 - 2*qz^2, 2*qy*qz - 2*qx*qw],
          ![2*qx*qz - 2*qy*qw, 2*qy*qz + 2*qx*qw, 1 - 2*qx^2 - 2*qy^2]] ∧
    RoofServer.quaternion_to_rotation_matrix (qw, qx, qy, qz) *
      (RoofServer.quaternion_to_rotation_matrix (qw, qx, qy, qz)).transpose = 1 ∧
    (RoofServer.quaternion_to_rotation_matrix (qw, qx, qy, qz)).det = 1 := by
  refine ⟨?_, ?_, ?_⟩
  · ext i j
    fin_cases i <;> fin_cases j <;>
      simp [RoofServer.quaternion_to_rotation_matrix, Matrix.vecHead, Matrix.vecTail] <;>
      ring
  · ext i j
    fin_cases i <;> fin_cases j <;>
      simp [RoofServer.quaternion_to_rotation_matrix, Matrix.mul_apply,
        Fin.sum_univ_three, Matrix.transpose_apply, Matrix.one_apply,
        Matrix.vecHead, Matrix.vecTail]
    · linear_combination (4 * (qy ^ 2 + qz ^ 2)) * h
    · linear_combination (-(4 * qx * qy)) * h
    · linear_combination (-(4 * qx * qz)) * h
    · linear_combination (-(4 * qx * qy)) * h
    · linear_combination (4 * (qx ^ 2 + qz ^ 2)) * h
    · linear_combination (-(4 * qy * qz)) * h
    · linear_combination (-(4 * qx * qz)) * h
    · linear_combination (-(4 * qy * qz)) * h
    · linear_combination (4 * (qx ^ 2 + qy ^ 2)) * h
  · rw [Matrix.det_fin_three]
    simp [RoofServer.quaternion_to_rotation_matrix, Matrix.vecHead, Matrix.vecTail]
    linear_combination (4 * (qx ^ 2 + qy ^ 2 + qz ^ 2)) * h

/-- C7 witness: the unit quaternion (1/2, 1/2, 1/2, 1/2). -/
theorem c7_witness :
    ((1/2 : ℝ) ^ 2 + (1/2) ^ 2 + (1/2) ^ 2 + (1/2) ^ 2 = 1) ∧
    (RoofServer.quaternion_to_rotation_matrix (1/2, 1/2, 1/2, 1/2) *
       (RoofServer.quaternion_to_rotation_matrix (1/2, 1/2, 1/2, 1/2)).transpose = 1 ∧
     (RoofServer.quaternion_to_rotation_matrix (1/2, 1/2, 1/2, 1/2)).det = 1) :=
  ⟨by norm_num,
   (c7_quaternion_rotation (1/2) (1/2) (1/2) (1/2) (by norm_num)).2⟩

namespace RoofServer

/-- The squared norm of a 3-vector. -/
theorem vnorm_sq (v : ℝ × ℝ × ℝ) :
    vnorm v ^ 2 = v.1 ^ 2 + v.2.1 ^ 2 + v.2.2 ^ 2 :=
  Real.sq_sqrt (by positivity)

/-- A 3-vector with positive squared norm has positive norm. -/
theorem vnorm_pos (v : ℝ × ℝ × ℝ)
    (h : 0 < v.1 ^ 2 + v.2.1 ^ 2 + v.2.2 ^ 2) : 0 < vnorm v :=
  Real.sqrt_pos.mpr h

/-- Every synthetic camera sits at horizontal distance 4 from the vertical
axis through the origin: `x² + y² = 16`. -/
theorem eye_horizontal_sq (n i : ℕ) :
    (eyePos n i).1 ^ 2 + (eyePos n i).2.1 ^ 2 = 16 := by
  have h := Real.sin_sq_add_cos_sq ((i : ℝ) * 2 * Real.pi / n)
  simp only [eyePos]
  linear_combination 16 * h

/-- The camera-to-origin vector of a synthetic camera has positive norm. -/
theorem vnorm_origin_sub_eye_pos (n i : ℕ) :
    0 < vnorm (vsub (0, 0, 0) (eyePos n i)) := by
  have hsq := eye_horizontal_sq n i
  have hz := sq_nonneg (eyePos n i).2.2
  apply vnorm_pos
  simp only [vsub]
  nlinarith

/-- Row 2 of a look-at matrix stores the negated forward direction, so
`fwdOfMatrix` recovers `lookForward` exactly. -/
theorem fwdOfMatrix_lookat (fp tp u : ℝ × ℝ × ℝ) :
    fwdOfMatrix (create_look_at_matrix fp tp u) = lookForward fp tp := by
  unfold fwdOfMatrix create_look_at_matrix
  simp [Matrix.mul_apply, Fin.sum_univ_four, Matrix.vecHead, Matrix.vecTail,
    Prod.ext_iff]

end RoofServer

/-- C10: for every image count N ≥ 3 and image index i, the synthetic eye
position is neither at the origin nor vertically above it, so the two vector
normalizations inside the look-at construction (of the forward vector and of
`cross(forward, up)`) divide by strictly positive norms. -/
theorem c10_lookat_welldefined (n i : ℕ) (h : 3 ≤ n) :
    RoofServer.eyePos n i ≠ (0, 0, 0) ∧
    ¬((RoofServer.eyePos n i).1 = 0 ∧ (RoofServer.eyePos n i).2.1 = 0) ∧
    0 < RoofServer.vnorm (RoofServer.vsub (0, 0, 0) (RoofServer.eyePos n i)) ∧
    0 < RoofServer.vnorm
        (RoofServer.lookRight0 (RoofServer.eyePos n i) (0, 0, 0) (0, 0, 1)) := by
  have hsq := RoofServer.eye_horizontal_sq n i
  have hpos := RoofServer.vnorm_origin_sub_eye_pos n i
  refine ⟨?_, ?_, hpos, ?_⟩
  · intro h0
    rw [h0] at hsq
    norm_num at hsq
  · rintro ⟨h1, h2⟩
    rw [h1, h2] at hsq
    norm_num at hsq
  · apply RoofServer.vnorm_pos
    simp only [RoofServer.lookRight0, RoofServer.lookForward, RoofServer.cross,
      RoofServer.vscale, RoofServer.vsub]
    have h1s : 0 < 1 / RoofServer.vnorm
        (0 - (RoofServer.eyePos n i).1, 0 - (RoofServer.eyePos n i).2.1,
         0 - (RoofServer.eyePos n i).2.2) := by
      apply one_div_pos.mpr
      apply RoofServer.vnorm_pos
      dsimp only
      nlinarith [hsq, sq_nonneg (RoofServer.eyePos n i).2.2]
    nlinarith [mul_pos (pow_pos h1s 2) (show (0:ℝ) < 16 by norm_num), hsq,
      sq_nonneg (1 / RoofServer.vnorm
        (0 - (RoofServer.eyePos n i).1, 0 - (RoofServer.eyePos n i).2.1,
         0 - (RoofServer.eyePos n i).2.2))]

/-- C10 witness: image count 3, index 0. -/
theorem c10_witness :
    (3 ≤ 3) ∧
    (RoofServer.eyePos 3 0 ≠ (0, 0, 0) ∧
     ¬((RoofServer.eyePos 3 0).1 = 0 ∧ (RoofServer.eyePos 3 0).2.1 = 0) ∧
     0 < RoofServer.vnorm (RoofServer.vsub (0, 0, 0) (RoofServer.eyePos 3 0)) ∧
     0 < RoofServer.vnorm
         (RoofServer.lookRight0 (RoofServer.eyePos 3 0) (0, 0, 0) (0, 0, 1))) :=
  ⟨le_refl 3, c10_lookat_welldefined 3 0 (le_refl 3)⟩

/-- Camera 0 of a 3-image rig sits at (4, 0, 2). -/
theorem eyePos_three_zero : RoofServer.eyePos 3 0 = (4, 0, 2) := by
  simp [RoofServer.eyePos]

/-- Camera 1 of a 3-image rig sits at (-2, 2·(√3/2)·2, 2 - √3/4). -/
theorem eyePos_three_one :
    RoofServer.eyePos 3 1 =
      (4 * -(1 / 2), 4 * (Real.sqrt 3 / 2), 2 + 0.5 * -(Real.sqrt 3 / 2)) := by
  have harg : ((1 : ℕ) : ℝ) * 2 * Real.pi / ((3 : ℕ) : ℝ) = Real.pi - Real.pi / 3 := by
    push_cast; ring
  have hcos : Real.cos (((1 : ℕ) : ℝ) * 2 * Real.pi / ((3 : ℕ) : ℝ)) = -(1 / 2) := by
    rw [harg, Real.cos_pi_sub, Real.cos_pi_div_three]
  have hsin : Real.sin (((1 : ℕ) : ℝ) * 2 * Real.pi / ((3 : ℕ) : ℝ)) = Real.sqrt 3 / 2 := by
    rw [harg, Real.sin_pi_sub, Real.sin_pi_div_three]
  have harg2 : ((1 : ℕ) : ℝ) * 2 * Real.pi / ((3 : ℕ) : ℝ) * 2 = Real.pi + Real.pi / 3 := by
    push_cast; ring
  have hsin2 : Real.sin (((1 : ℕ) : ℝ) * 2 * Real.pi / ((3 : ℕ) : ℝ) * 2) = -(Real.sqrt 3 / 2) := by
    rw [harg2, Real.sin_add, Real.sin_pi, Real.cos_pi, Real.sin_pi_div_three]
    ring
  simp only [RoofServer.eyePos, hcos, hsin, hsin2]

/-- C5 counterexample: the synthetic cameras are not at a fixed distance
from the origin — camera 0 of a 3-image rig is at squared distance 20 (not
16 = 4², the circle radius squared), and cameras 0 and 1 are at two
different distances from the origin. -/
theorem c5_counterexample :
    RoofServer.vnorm (RoofServer.eyePos 3 0) ^ 2 = 20 ∧
    RoofServer.vnorm (RoofServer.eyePos 3 0) ≠ 4 ∧
    RoofServer.vnorm (RoofServer.eyePos 3 0) ≠ RoofServer.vnorm (RoofServer.eyePos 3 1) := by
  have hsq3 : Real.sqrt 3 ^ 2 = 3 := Real.sq_sqrt (by norm_num)
  have h0 : RoofServer.vnorm (RoofServer.eyePos 3 0) ^ 2 = 20 := by
    rw [eyePos_three_zero, RoofServer.vnorm_sq]
    norm_num
  have h1 : RoofServer.vnorm (RoofServer.eyePos 3 1) ^ 2 = 323 / 16 - Real.sqrt 3 := by
    rw [eyePos_three_one, RoofServer.vnorm_sq]
    dsimp only
    linear_combination (65 / 16) * hsq3
  have hroot : 1 < Real.sqrt 3 := by
    rw [show (1 : ℝ) = Real.sqrt 1 from (Real.sqrt_one).symm]
    exact Real.sqrt_lt_sqrt (by norm_num) (by norm_num)
  refine ⟨h0, ?_, ?_⟩
  · intro he
    rw [he] at h0
    norm_num at h0
  · intro he
    rw [he, h1] at h0
    nlinarith [hroot]

/-- C5 (amended): with N ≥ 3 images, the synthetic rig produces exactly N
poses, one per image in order, the i-th built from eye position `eyePos N i`;
every eye position lies on the horizontal circle of fixed radius 4 about the
vertical axis (x² + y² = 16, height varying), and every pose's forward
vector, scaled by the positive camera-origin distance, is exactly the vector
from the camera to the origin — the camera looks at the origin. -/
theorem c5_synthetic_rig (files : List String) (h : 3 ≤ files.length) :
    ∃ t, RoofServer.create_fallback_transforms files = some t ∧
      t.frames.length = files.length ∧
      (∀ i, i < files.length →
        (t.frames[i]?).map RoofServer.Frame.transform_matrix =
          some (RoofServer.fallbackPose files.length i)) ∧
      (∀ i : ℕ,
        (RoofServer.eyePos files.length i).1 ^ 2 +
          (RoofServer.eyePos files.length i).2.1 ^ 2 = 16 ∧
        0 < RoofServer.vnorm
            (RoofServer.vsub (0, 0, 0) (RoofServer.eyePos files.length i)) ∧
        RoofServer.vscale
            (RoofServer.vnorm
              (RoofServer.vsub (0, 0, 0) (RoofServer.eyePos files.length i)))
            (RoofServer.fwdOfMatrix (RoofServer.fallbackPose files.length i)) =
          RoofServer.vsub (0, 0, 0) (RoofServer.eyePos files.length i)) := by
  refine ⟨{ camera_angle_x := 0.8575560450553894
            frames := files.mapIdx (fun i name =>
              { file_path := name
                transform_matrix := RoofServer.fallbackPose files.length i }) },
          ?_, ?_, ?_, ?_⟩
  · rw [RoofServer.create_fallback_transforms, if_neg (by omega)]
  · simp
  · intro i hi
    simp [List.getElem?_mapIdx, List.getElem?_eq_getElem hi]
  · intro i
    have hsq := RoofServer.eye_horizontal_sq files.length i
    have hpos := RoofServer.vnorm_origin_sub_eye_pos files.length i
    refine ⟨hsq, hpos, ?_⟩
    rw [RoofServer.fallbackPose, RoofServer.fwdOfMatrix_lookat]
    simp only [RoofServer.lookForward, RoofServer.vscale]
    have hne0 : RoofServer.vnorm (RoofServer.vsub 0 (RoofServer.eyePos files.length i)) ≠ 0 :=
      ne_of_gt hpos
    refine Prod.ext ?_ (Prod.ext ?_ ?_) <;> dsimp only <;> field_simp

/-- C5 witness: the amended rig property at the concrete 3-image list. -/
theorem c5_witness :
    ∃ t, RoofServer.create_fallback_transforms ["a", "b", "c"] = some t ∧
      t.frames.length = 3 ∧
      (∀ i, i < 3 →
        (t.frames[i]?).map RoofServer.Frame.transform_matrix =
          some (RoofServer.fallbackPose 3 i)) ∧
      (∀ i : ℕ,
        (RoofServer.eyePos 3 i).1 ^ 2 + (RoofServer.eyePos 3 i).2.1 ^ 2 = 16 ∧
        0 < RoofServer.vnorm (RoofServer.vsub (0, 0, 0) (RoofServer.eyePos 3 i)) ∧
        RoofServer.vscale
            (RoofServer.vnorm (RoofServer.vsub (0, 0, 0) (RoofServer.eyePos 3 i)))
            (RoofServer.fwdOfMatrix (RoofServer.fallbackPose 3 i)) =
          RoofServer.vsub (0, 0, 0) (RoofServer.eyePos 3 i)) :=
  c5_synthetic_rig ["a", "b", "c"] (by norm_num)

namespace RoofMeasurements

/-- The z-component of a face tilted less than 90° is positive. -/
theorem cos_deg_pos (d : ℝ) (h0 : 0 ≤ d) (h1 : d < 90) :
    0 < Real.cos (d * Real.pi / 180) := by
  have hpi := Real.pi_pos
  exact Real.cos_pos_of_mem_Ioo ⟨by nlinarith, by nlinarith⟩

/-- The angle extraction recovers the tilt: for a face tilted `d ∈ [0°, 90°]`
degrees, `degrees(arccos(|cos(radians(d))|)) = d`. -/
theorem angle_of_deg (d : ℝ) (h0 : 0 ≤ d) (h1 : d ≤ 90) :
    Real.arccos |Real.cos (d * Real.pi / 180)| * (180 / Real.pi) = d := by
  have hpi := Real.pi_pos
  have h2 : 0 ≤ d * Real.pi / 180 := by positivity
  have h3 : d * Real.pi / 180 ≤ Real.pi / 2 := by nlinarith
  have hcos : 0 ≤ Real.cos (d * Real.pi / 180) :=
    Real.cos_nonneg_of_mem_Icc ⟨by linarith, h3⟩
  rw [abs_of_nonneg hcos, Real.arccos_cos h2 (by linarith)]
  field_simp

/-- All faces of `mesh30` are upward-facing. -/
theorem filterUpward_mesh30 : filterUpward mesh30 = mesh30 := by
  have h := cos_deg_pos 30 (by norm_num) (by norm_num)
  simp [mesh30, filterUpward, faceOfDeg, h]

/-- All faces of `mesh4` are upward-facing. -/
theorem filterUpward_mesh4 : filterUpward mesh4 = mesh4 := by
  have g0 := cos_deg_pos 0 (by norm_num) (by norm_num)
  have g2 := cos_deg_pos 2 (by norm_num) (by norm_num)
  have g45 := cos_deg_pos 45 (by norm_num) (by norm_num)
  simp [mesh4, filterUpward, faceOfDeg, g0, g2, g45]

/-- The angle list of `mesh30` is exactly [30]. -/
theorem anglesDeg_mesh30 : anglesDeg mesh30 = [30] := by
  rw [anglesDeg, filterUpward_mesh30]
  simp only [mesh30, faceOfDeg, List.map_cons, List.map_nil]
  rw [angle_of_deg 30 (by norm_num) (by norm_num)]

/-- The angle list of `mesh4` is exactly [0, 2, 2, 45]. -/
theorem anglesDeg_mesh4 : anglesDeg mesh4 = [0, 2, 2, 45] := by
  rw [anglesDeg, filterUpward_mesh4]
  simp only [mesh4, faceOfDeg, List.map_cons, List.map_nil]
  rw [angle_of_deg 0 (by norm_num) (by norm_num),
    angle_of_deg 2 (by norm_num) (by norm_num),
    angle_of_deg 45 (by norm_num) (by norm_num)]

end RoofMeasurements

namespace RoofMeasurements

/-- Histogram of the single angle 30: numpy's degenerate range (29.5, 30.5);
only bin 18 (whose left edge is exactly 30) is populated. -/
theorem binCount_l30 (k : ℕ) :
    binCount [(30 : ℝ)] k = if k = 18 then 1 else 0 := by
  have hmin : listMin [(30 : ℝ)] = 30 := by simp [listMin]
  have hmax : listMax [(30 : ℝ)] = 30 := by simp [listMax]
  have hlo : binLo [(30 : ℝ)] = 29.5 := by rw [binLo, hmin, hmax, if_pos rfl]; norm_num
  have hhi : binHi [(30 : ℝ)] = 30.5 := by rw [binHi, hmin, hmax, if_pos rfl]; norm_num
  have hedge : ∀ j : ℕ, binEdge [(30 : ℝ)] j = 29.5 + j / 36 := by
    intro j; rw [binEdge, hlo, hhi]; ring
  by_cases h35 : k = 35
  · subst h35
    rw [binCount, if_pos rfl]
    simp only [countInClosed, hedge]
    norm_num
  · rw [binCount, if_neg h35]
    simp only [countIn, hedge]
    rcases eq_or_ne k 18 with h18 | h18
    · subst h18
      push_cast
      norm_num
    · have hcond : ¬((29.5 + (k : ℝ) / 36 ≤ 30) ∧ (30 < 29.5 + ((k + 1 : ℕ) : ℝ) / 36)) := by
        rintro ⟨hA, hB⟩
        push_cast at hB
        have hk1 : k ≤ 18 := by exact_mod_cast (by linarith : (k : ℝ) ≤ 18)
        have hk2 : (17 : ℝ) < (k : ℝ) := by linarith
        have hk3 : 17 < k := by exact_mod_cast hk2
        omega
      rw [if_neg hcond, if_neg h18]

/-- The `hist` array of the single angle 30. -/
theorem histCounts_l30 :
    histCounts [(30 : ℝ)] =
      [0, 0, 0, 0, 0, 0, 0, 0, 0, 0, 0, 0, 0, 0, 0, 0, 0, 0, 1,
       0, 0, 0, 0, 0, 0, 0, 0, 0, 0, 0, 0, 0, 0, 0, 0, 0] := by
  have hr : List.range 36 =
      [0, 1, 2, 3, 4, 5, 6, 7, 8, 9, 10, 11, 12, 13, 14, 15, 16, 17, 18, 19,
       20, 21, 22, 23, 24, 25, 26, 27, 28, 29, 30, 31, 32, 33, 34, 35] := by rfl
  rw [histCounts, hr]
  simp only [List.map_cons, List.map_nil, binCount_l30]
  norm_num

/-- `np.argmax` lands on bin 18 for the single angle 30. -/
theorem argmax_l30 : argmaxIdx (histCounts [(30 : ℝ)]) = 18 := by
  rw [histCounts_l30]
  rfl

/-- The primary pitch angle of the single angle 30 is exactly 30. -/
theorem primaryAngle_l30 : primaryAngle [(30 : ℝ)] = 30 := by
  have hlo : binLo [(30 : ℝ)] = 29.5 := by
    rw [binLo, show listMin [(30 : ℝ)] = 30 from by simp [listMin],
      show listMax [(30 : ℝ)] = 30 from by simp [listMax], if_pos rfl]
    norm_num
  have hhi : binHi [(30 : ℝ)] = 30.5 := by
    rw [binHi, show listMin [(30 : ℝ)] = 30 from by simp [listMin],
      show listMax [(30 : ℝ)] = 30 from by simp [listMax], if_pos rfl]
    norm_num
  have hedge : ∀ j : ℕ, binEdge [(30 : ℝ)] j = 29.5 + j / 36 := by
    intro j; rw [binEdge, hlo, hhi]; ring
  simp only [primaryAngle, argmax_l30]
  simp only [membersIn, hedge]
  rw [if_pos (by push_cast; norm_num)]
  norm_num

end RoofMeasurements

namespace RoofMeasurements

/-- Bounds on √3 tight enough to round 40·√3 = 69.28… to 69. -/
theorem sqrt_three_bounds : 1.7125 ≤ Real.sqrt 3 ∧ Real.sqrt 3 < 1.7375 :=
  ⟨(Real.le_sqrt' (by norm_num)).mpr (by norm_num),
   (Real.sqrt_lt' (by norm_num)).mpr (by norm_num)⟩

/-- `round(tan(radians(30)) * 12 * 10) = 69`: the one-decimal rendering of
the 30° rise is 6.9, not 7. -/
theorem round_rise_thirty : round (Real.tan (30 * Real.pi / 180) * 12 * 10) = 69 := by
  have harg : (30 : ℝ) * Real.pi / 180 = Real.pi / 6 := by ring
  have htan : Real.tan (30 * Real.pi / 180) = 1 / Real.sqrt 3 := by
    rw [harg, Real.tan_pi_div_six]
  have hs3 : Real.sqrt 3 ^ 2 = 3 := Real.sq_sqrt (by norm_num)
  have hs3pos : 0 < Real.sqrt 3 := Real.sqrt_pos.mpr (by norm_num)
  have hval : Real.tan (30 * Real.pi / 180) * 12 * 10 = 40 * Real.sqrt 3 := by
    rw [htan]
    field_simp
    nlinarith [hs3]
  obtain ⟨hlb, hub⟩ := sqrt_three_bounds
  rw [hval, round_eq]
  have h1 : (69 : ℝ) ≤ 40 * Real.sqrt 3 + 1 / 2 := by nlinarith
  have h2 : 40 * Real.sqrt 3 + 1 / 2 < 70 := by nlinarith
  rw [show (69 : ℤ) = ((69 : ℤ)) from rfl]
  exact_mod_cast Int.floor_eq_iff.mpr ⟨by exact_mod_cast h1, by exact_mod_cast h2⟩

/-- Evaluation of `calculate_roof_pitch` on the 30°-tilted single-face mesh:
degrees 30.0 and primary pitch string "6.9:12". -/
theorem pitch_mesh30_eval :
    (calculate_roof_pitch mesh30).primary = "6.9:12" ∧
    (calculate_roof_pitch mesh30).degrees = 30 := by
  have hcase : filterUpward mesh30 = faceOfDeg 30 :: [] := by
    rw [filterUpward_mesh30, mesh30]
  have hangle : primaryAngle (anglesDeg mesh30) = 30 := by
    rw [anglesDeg_mesh30, primaryAngle_l30]
  have hdeg : round ((30 : ℝ) * 10) = 300 := by
    rw [round_eq]
    rw [show (30 : ℝ) * 10 + 1 / 2 = 601 / 2 by norm_num]
    rw [show (300 : ℤ) = ((300 : ℤ)) from rfl]
    apply Int.floor_eq_iff.mpr
    constructor <;> norm_num
  constructor
  · simp only [calculate_roof_pitch, hcase, hangle, round_rise_thirty]
    rfl
  · simp only [calculate_roof_pitch, hcase, hangle, hdeg]
    norm_num

end RoofMeasurements

/-- C3 (amended): whenever roof_measurements.py computes a primary pitch
angle, the rise `tan(radians(angle)) * 12` is NOT rounded to an integer —
the pitch string renders it to one decimal place as `"rise:12"`; in
particular the 30°-tilted single-face mesh reports degrees 30.0 and the
pitch string "6.9:12". -/
theorem c3_pitch_rendering :
    (∀ normals : List (ℝ × ℝ × ℝ), RoofMeasurements.filterUpward normals ≠ [] →
      (RoofMeasurements.calculate_roof_pitch normals).primary =
        RoofMeasurements.fmtOneDecimal
          (round (Real.tan (RoofMeasurements.primaryAngle
              (RoofMeasurements.anglesDeg normals) * Real.pi / 180) * 12 * 10)) ++
          ":12") ∧
    (RoofMeasurements.calculate_roof_pitch RoofMeasurements.mesh30).degrees = 30 ∧
    (RoofMeasurements.calculate_roof_pitch RoofMeasurements.mesh30).primary = "6.9:12" := by
  refine ⟨?_, RoofMeasurements.pitch_mesh30_eval.2, RoofMeasurements.pitch_mesh30_eval.1⟩
  intro normals h
  rcases hcase : RoofMeasurements.filterUpward normals with _ | ⟨n, t⟩
  · exact absurd hcase h
  · simp only [RoofMeasurements.calculate_roof_pitch, hcase]

/-- C3 witness: the general rendering rule applied at the 30° mesh. -/
theorem c3_witness :
    RoofMeasurements.filterUpward RoofMeasurements.mesh30 ≠ [] ∧
    (RoofMeasurements.calculate_roof_pitch RoofMeasurements.mesh30).primary =
      RoofMeasurements.fmtOneDecimal
        (round (Real.tan (RoofMeasurements.primaryAngle
            (RoofMeasurements.anglesDeg RoofMeasurements.mesh30) * Real.pi / 180)
          * 12 * 10)) ++ ":12" :=
  ⟨by rw [RoofMeasurements.filterUpward_mesh30, RoofMeasurements.mesh30]; simp,
   c3_pitch_rendering.1 RoofMeasurements.mesh30
     (by rw [RoofMeasurements.filterUpward_mesh30, RoofMeasurements.mesh30]; simp)⟩

/-- C3 counterexample: on a mesh whose single face is tilted 30° from
horizontal, roof_measurements.py reports the pitch string "6.9:12" — the
rise is rendered unrounded to one decimal with a colon — and not the
claimed "7:12" (rounded rise); the degrees value 30 is as claimed. -/
theorem c3_counterexample :
    (RoofMeasurements.calculate_roof_pitch RoofMeasurements.mesh30).primary = "6.9:12" ∧
    "6.9:12" ≠ "7:12" ∧
    (RoofMeasurements.calculate_roof_pitch RoofMeasurements.mesh30).degrees = 30 :=
  ⟨RoofMeasurements.pitch_mesh30_eval.1, by decide,
   RoofMeasurements.pitch_mesh30_eval.2⟩

namespace RoofMeasurements

theorem listMin_l4 : listMin [(0 : ℝ), 2, 2, 45] = 0 := by
  norm_num [listMin, List.foldl, min_def]

theorem listMax_l4 : listMax [(0 : ℝ), 2, 2, 45] = 45 := by
  norm_num [listMax, List.foldl, max_def]

theorem binEdge_l4 (j : ℕ) : binEdge [(0 : ℝ), 2, 2, 45] j = j * (5 / 4) := by
  rw [binEdge, binLo, binHi, listMin_l4, listMax_l4, if_neg (by norm_num),
    if_neg (by norm_num)]
  ring

/-- Data-range histogram of [0, 2, 2, 45]: bins span [0, 45] in steps of
1.25; bin 0 holds the angle 0, bin 1 holds both angles 2, and the closed
last bin holds 45. -/
theorem binCount_l4 (k : ℕ) (hk : k < 36) :
    binCount [(0 : ℝ), 2, 2, 45] k =
      if k = 0 then 1 else if k = 1 then 2 else if k = 35 then 1 else 0 := by
  by_cases h35 : k = 35
  · subst h35
    rw [binCount, if_pos rfl]
    simp only [countInClosed, binEdge_l4]
    push_cast
    norm_num
  · rw [binCount, if_neg h35]
    simp only [countIn, binEdge_l4]
    push_cast
    by_cases h0 : k = 0
    · subst h0; norm_num
    · by_cases h1 : k = 1
      · subst h1; norm_num
      · have hk2 : 2 ≤ k := by omega
        have hk34 : k ≤ 34 := by omega
        have hk2r : (2 : ℝ) ≤ (k : ℝ) := by exact_mod_cast hk2
        have hk34r : ((k : ℝ)) ≤ 34 := by exact_mod_cast hk34
        rw [if_neg (by rintro ⟨hA, _⟩; linarith),
          if_neg (by rintro ⟨hA, _⟩; linarith),
          if_neg (by rintro ⟨_, hB⟩; linarith),
          if_neg h0, if_neg h1, if_neg h35]

theorem histCounts_l4 :
    histCounts [(0 : ℝ), 2, 2, 45] =
      [1, 2, 0, 0, 0, 0, 0, 0, 0, 0, 0, 0, 0, 0, 0, 0, 0, 0, 0,
       0, 0, 0, 0, 0, 0, 0, 0, 0, 0, 0, 0, 0, 0, 0, 0, 1] := by
  have hr : List.range 36 =
      [0, 1, 2, 3, 4, 5, 6, 7, 8, 9, 10, 11, 12, 13, 14, 15, 16, 17, 18, 19,
       20, 21, 22, 23, 24, 25, 26, 27, 28, 29, 30, 31, 32, 33, 34, 35] := by rfl
  rw [histCounts, hr]
  simp [binCount_l4]

theorem argmax_l4 : argmaxIdx (histCounts [(0 : ℝ), 2, 2, 45]) = 1 := by
  rw [histCounts_l4]
  rfl

/-- The source's data-range estimator returns 2 on the angle list
[0, 2, 2, 45]: the most populated data-range bin is [1.25, 2.5) holding
{2, 2}. -/
theorem primaryAngle_l4 : primaryAngle [(0 : ℝ), 2, 2, 45] = 2 := by
  simp only [primaryAngle, argmax_l4]
  simp only [membersIn, binEdge_l4]
  rw [if_neg (by norm_num), if_pos (by norm_num), if_pos (by norm_num),
    if_neg (by norm_num)]
  norm_num

/-- Fixed-range histogram of [0, 2, 2, 45]: bins span [0, 90) in steps of
2.5; bin 0 holds {0, 2, 2} and bin 18 holds {45}. -/
theorem specBinCount_l4 (k : ℕ) (hk : k < 36) :
    specBinCount [(0 : ℝ), 2, 2, 45] k =
      if k = 0 then 3 else if k = 18 then 1 else 0 := by
  rw [specBinCount]
  simp only [countIn]
  by_cases h0 : k = 0
  · subst h0; norm_num
  · by_cases h18 : k = 18
    · subst h18; norm_num
    · have hk1 : 1 ≤ k := by omega
      have hk1r : (1 : ℝ) ≤ (k : ℝ) := by exact_mod_cast hk1
      have h45 : ¬(90 * (k : ℝ) / 36 ≤ 45 ∧ 45 < 90 * ((k : ℝ) + 1) / 36) := by
        rintro ⟨hA, hB⟩
        have hle : (k : ℝ) ≤ 18 := by linarith
        have hgt : (17 : ℝ) < (k : ℝ) := by linarith
        have : k ≤ 18 := by exact_mod_cast hle
        have : 17 < k := by exact_mod_cast hgt
        omega
      rw [if_neg (by rintro ⟨hA, _⟩; linarith),
        if_neg (by rintro ⟨hA, _⟩; linarith),
        if_neg h45, if_neg h0, if_neg h18]

theorem specCounts_l4 :
    specCounts [(0 : ℝ), 2, 2, 45] =
      [3, 0, 0, 0, 0, 0, 0, 0, 0, 0, 0, 0, 0, 0, 0, 0, 0, 0, 1,
       0, 0, 0, 0, 0, 0, 0, 0, 0, 0, 0, 0, 0, 0, 0, 0, 0] := by
  have hr : List.range 36 =
      [0, 1, 2, 3, 4, 5, 6, 7, 8, 9, 10, 11, 12, 13, 14, 15, 16, 17, 18, 19,
       20, 21, 22, 23, 24, 25, 26, 27, 28, 29, 30, 31, 32, 33, 34, 35] := by rfl
  rw [specCounts, hr]
  simp [specBinCount_l4]

/-- The spec's fixed-range estimator returns 4/3 on the angle list
[0, 2, 2, 45]: the most populated fixed bin is [0, 2.5) holding {0, 2, 2}. -/
theorem specPrimaryAngle_l4 :
    specPrimaryAngleFixed [(0 : ℝ), 2, 2, 45] = 4 / 3 := by
  have hargmax : argmaxIdx (specCounts [(0 : ℝ), 2, 2, 45]) = 0 := by
    rw [specCounts_l4]
    rfl
  simp only [specPrimaryAngleFixed, hargmax]
  simp only [membersIn]
  push_cast
  rw [if_pos (by norm_num), if_pos (by norm_num), if_pos (by norm_num),
    if_neg (by norm_num)]
  norm_num

end RoofMeasurements

namespace RoofMeasurements

/-- `List.foldr max 0` over a nonempty list of naturals is attained. -/
theorem foldr_max_mem (L : List ℕ) (h : L ≠ []) : L.foldr max 0 ∈ L := by
  induction L with
  | nil => exact absurd rfl h
  | cons a t ih =>
    rcases eq_or_ne t [] with ht | ht
    · subst ht
      simp
    · rcases max_choice a (t.foldr max 0) with hm | hm <;> rw [List.foldr_cons, hm]
      · exact List.mem_cons_self a t
      · exact List.mem_cons_of_mem a (ih ht)

/-- `List.foldr max 0` bounds every member. -/
theorem le_foldr_max (L : List ℕ) (x : ℕ) (hx : x ∈ L) : x ≤ L.foldr max 0 := by
  induction L with
  | nil => cases hx
  | cons a t ih =>
    rw [List.foldr_cons]
    rcases List.mem_cons.mp hx with h | h
    · exact h ▸ le_max_left _ _
    · exact le_trans (ih h) (le_max_right _ _)

/-- Members strictly before `indexOf a` differ from `a` (np.argmax picks the
first occurrence). -/
theorem ne_of_lt_indexOf (L : List ℕ) (a x : ℕ) (j : ℕ) (hj : j < L.indexOf a)
    (hx : L[j]? = some x) : x ≠ a := by
  induction L generalizing j with
  | nil => simp at hx
  | cons b t ih =>
    rcases eq_or_ne b a with hb | hb
    · subst hb
      rw [List.indexOf_cons_self] at hj
      omega
    · rw [List.indexOf_cons_ne _ hb] at hj
      cases j with
      | zero =>
        simp only [List.getElem?_cons_zero, Option.some.injEq] at hx
        exact hx ▸ hb
      | succ j2 =>
        exact ih j2 (by omega) (by simpa using hx)

/-- The histogram array holds `binCount` at every index. -/
theorem histCounts_getElem (l : List ℝ) (j : ℕ) (hj : j < 36) :
    (histCounts l)[j]? = some (binCount l j) := by
  rw [histCounts, List.getElem?_map, List.getElem?_range hj, Option.map_some']

end RoofMeasurements

/-- C4 (amended): the pitch estimator computes `arccos(|normal·up|)` in
degrees for exactly the upward faces, builds its 36-bin histogram over the
DATA range `[min angle, max angle]` (numpy's default, widened by ±0.5° when
all angles coincide) rather than the fixed range [0°, 90°), and returns the
mean of the angles in `[edge k, edge (k+1))` for the first most-populated
bin `k`. -/
theorem c4_histogram_primary_angle (l : List ℝ) :
    RoofMeasurements.argmaxIdx (RoofMeasurements.histCounts l) < 36 ∧
    (∀ j, j < 36 →
      RoofMeasurements.binCount l j ≤
        RoofMeasurements.binCount l
          (RoofMeasurements.argmaxIdx (RoofMeasurements.histCounts l))) ∧
    (∀ j, j < RoofMeasurements.argmaxIdx (RoofMeasurements.histCounts l) →
      RoofMeasurements.binCount l j <
        RoofMeasurements.binCount l
          (RoofMeasurements.argmaxIdx (RoofMeasurements.histCounts l))) ∧
    RoofMeasurements.primaryAngle l =
      (RoofMeasurements.membersIn
        (RoofMeasurements.binEdge l
          (RoofMeasurements.argmaxIdx (RoofMeasurements.histCounts l)))
        (RoofMeasurements.binEdge l
          (RoofMeasurements.argmaxIdx (RoofMeasurements.histCounts l) + 1)) l).sum /
      (RoofMeasurements.membersIn
        (RoofMeasurements.binEdge l
          (RoofMeasurements.argmaxIdx (RoofMeasurements.histCounts l)))
        (RoofMeasurements.binEdge l
          (RoofMeasurements.argmaxIdx (RoofMeasurements.histCounts l) + 1)) l).length := by
  have hlen : (RoofMeasurements.histCounts l).length = 36 := by
    simp [RoofMeasurements.histCounts]
  have hne : RoofMeasurements.histCounts l ≠ [] := by
    intro h
    rw [h] at hlen
    simp at hlen
  have hmem := RoofMeasurements.foldr_max_mem (RoofMeasurements.histCounts l) hne
  have hKlen : (RoofMeasurements.histCounts l).indexOf
      ((RoofMeasurements.histCounts l).foldr max 0) <
      (RoofMeasurements.histCounts l).length :=
    List.indexOf_lt_length.mpr hmem
  have hK36 : RoofMeasurements.argmaxIdx (RoofMeasurements.histCounts l) < 36 := by
    rw [RoofMeasurements.argmaxIdx]
    omega
  have hKval : RoofMeasurements.binCount l
      (RoofMeasurements.argmaxIdx (RoofMeasurements.histCounts l)) =
      (RoofMeasurements.histCounts l).foldr max 0 := by
    have h1 := RoofMeasurements.histCounts_getElem l
      (RoofMeasurements.argmaxIdx (RoofMeasurements.histCounts l)) hK36
    have h2 : (RoofMeasurements.histCounts l)[(RoofMeasurements.histCounts l).indexOf
        ((RoofMeasurements.histCounts l).foldr max 0)]? =
        some ((RoofMeasurements.histCounts l).foldr max 0) := by
      rw [List.getElem?_eq_getElem hKlen, List.getElem_indexOf hKlen]
    rw [RoofMeasurements.argmaxIdx] at h1
    rw [h1] at h2
    exact Option.some.inj h2
  refine ⟨hK36, ?_, ?_, rfl⟩
  · intro j hj
    have hj1 := RoofMeasurements.histCounts_getElem l j hj
    have hjmem : RoofMeasurements.binCount l j ∈ RoofMeasurements.histCounts l :=
      List.getElem?_mem hj1
    rw [hKval]
    exact RoofMeasurements.le_foldr_max _ _ hjmem
  · intro j hj
    have hj36 : j < 36 := lt_trans hj hK36
    have hj1 := RoofMeasurements.histCounts_getElem l j hj36
    have hjmem : RoofMeasurements.binCount l j ∈ RoofMeasurements.histCounts l :=
      List.getElem?_mem hj1
    have hle : RoofMeasurements.binCount l j ≤
        (RoofMeasurements.histCounts l).foldr max 0 :=
      RoofMeasurements.le_foldr_max _ _ hjmem
    have hne2 : RoofMeasurements.binCount l j ≠
        (RoofMeasurements.histCounts l).foldr max 0 := by
      apply RoofMeasurements.ne_of_lt_indexOf (RoofMeasurements.histCounts l) _ _ j _ hj1
      rw [RoofMeasurements.argmaxIdx] at hj
      exact hj
    rw [hKval]
    omega

/-- C4 counterexample: on the four-face mesh with tilts 0°, 2°, 2°, 45° the
source's estimator (data-range bins of width 1.25°) returns 2, while the
spec's fixed-range [0°, 90°) estimator (bins of width 2.5°, most populated
bin [0°, 2.5°) holding {0, 2, 2}) returns 4/3 — the code does not bin over
the fixed range. -/
theorem c4_counterexample :
    RoofMeasurements.anglesDeg RoofMeasurements.mesh4 = [0, 2, 2, 45] ∧
    RoofMeasurements.primaryAngle
      (RoofMeasurements.anglesDeg RoofMeasurements.mesh4) = 2 ∧
    RoofMeasurements.specPrimaryAngleFixed
      (RoofMeasurements.anglesDeg RoofMeasurements.mesh4) = 4 / 3 ∧
    (2 : ℝ) ≠ 4 / 3 := by
  refine ⟨RoofMeasurements.anglesDeg_mesh4, ?_, ?_, by norm_num⟩
  · rw [RoofMeasurements.anglesDeg_mesh4]
    exact RoofMeasurements.primaryAngle_l4
  · rw [RoofMeasurements.anglesDeg_mesh4]
    exact RoofMeasurements.specPrimaryAngle_l4
